import Mathlib

/-!
Shallow embedding of the chuk MCP artifact server tool layer
(`chuk_mcp_artifact_server/tools.py` and `models.py`).

The backend object store (`ArtifactStore`) is an external collaborator; it
is modelled as an oracle: a record of per-call outcomes.  Each handler is a
pure function of that oracle; handlers whose claims talk about which backend
calls were attempted additionally return a trace of backend-call events.

Python conventions modelled explicitly:
* optional string fields are `Option String`; Python truthiness (`None` and
  `""` are falsy) is the `truthy` function, and `a or b` on such values is
  `pyOr`;
* a raised exception is an `Except.error`; `ToolError.valueError` is a
  `raise ValueError(...)` performed by the tool, `ToolError.uncaught` is an
  exception that propagates out of the tool uncaught.
-/

namespace ChukArtifact

/-- Python truthiness of an optional string: `None` and `""` are falsy. -/
def truthy : Option String → Bool
  | none => false
  | some s => decide (s ≠ "")

/-- Python `a or b` on optional strings. -/
def pyOr (a b : Option String) : Option String :=
  if truthy a then a else b

/-- Split a character list on a separator character, Python `str.split`
style: the result is never empty, and empty groups are kept. -/
def splitOnCharL (sep : Char) : List Char → List (List Char)
  | [] => [[]]
  | c :: cs =>
    let r := splitOnCharL sep cs
    if c = sep then [] :: r
    else
      match r with
      | [] => [[c]]
      | g :: gs => (c :: g) :: gs

/-- Python `s.split("/")[-1]`: last segment of a `/`-separated path. -/
def lastSegment (s : String) : String :=
  String.mk ((splitOnCharL '/' s.toList).getLastD [])

/-- Does the character list `hay` start with `needle`? -/
def startsWithL : List Char → List Char → Bool
  | [], _ => true
  | _ :: _, [] => false
  | n :: ns, h :: hs => n = h && startsWithL ns hs

/-- Does the character list contain `needle` as a contiguous run? -/
def containsL (needle : List Char) : List Char → Bool
  | [] => startsWithL needle []
  | h :: hs => startsWithL needle (h :: hs) || containsL needle hs

/-- Python `needle in hay` on strings. -/
def strContains (hay needle : String) : Bool :=
  containsL needle.toList hay.toList

/-- Raw metadata record returned by the backend store: a heterogeneous dict;
we model the fields `_info` reads.  `Option` marks a possibly-absent key. -/
structure RawMeta where
  artifact_id : Option String := none
  id : Option String := none
  key : Option String := none
  filename : Option String := none
  mime : Option String := none
  bytes : Option Int := none
  summary : Option String := none
  stored_at : Option String := none
  session_id : Option String := none
  meta : Option (List (String × String)) := none
deriving DecidableEq, Repr

/-- Canonical artefact descriptor (`models.ArtifactInfo`). -/
structure ArtifactInfo where
  artifact_id : String
  filename : Option String
  mime : String
  bytes : Int
  summary : Option String
  stored_at : String
  session_id : Option String
  meta : List (String × String)
deriving DecidableEq, Repr

/-- A Python `KeyError(field)` raised during normalization: `"artifact_id"`
is the spec's MissingIdentifier, a required raw field name is the spec's
MalformedMetadata. -/
inductive InfoError where
  | keyError (field : String)
deriving DecidableEq, Repr

/-- Embedding of `tools._info`: convert raw store metadata into the
canonical `ArtifactInfo`, deriving `artifact_id` by the Python chain
`meta.get("artifact_id") or meta.get("id") or (meta.get("key") or "").split("/")[-1] or fallback_id`
and `session_id` by `meta.get("session_id") or fallback_session_id`. -/
def _info (m : RawMeta) (fallback_id : Option String := none)
    (fallback_session_id : Option String := none) :
    Except InfoError ArtifactInfo :=
  let art_id :=
    pyOr (pyOr (pyOr m.artifact_id m.id)
      (some (lastSegment (m.key.getD "")))) fallback_id
  if ¬ truthy art_id then .error (.keyError "artifact_id")
  else
    match m.mime with
    | none => .error (.keyError "mime")
    | some mime =>
      match m.bytes with
      | none => .error (.keyError "bytes")
      | some nbytes =>
        match m.stored_at with
        | none => .error (.keyError "stored_at")
        | some stamp =>
          .ok {
            artifact_id := art_id.getD ""
            filename := m.filename
            mime := mime
            bytes := nbytes
            summary := m.summary
            stored_at := stamp
            session_id := pyOr m.session_id fallback_session_id
            meta := m.meta.getD [] }

deriving instance DecidableEq for Except

/-- A well-formed sample raw metadata record, used in concrete witnesses. -/
def sampleRaw : RawMeta :=
  { artifact_id := some "a1", mime := some "text/plain", bytes := some 3,
    stored_at := some "2025-06-01T00:00:00Z" }

example : _info sampleRaw none (some "s") =
    .ok { artifact_id := "a1", filename := none, mime := "text/plain",
          bytes := 3, summary := none, stored_at := "2025-06-01T00:00:00Z",
          session_id := some "s", meta := [] } := by decide

example : _info { sampleRaw with artifact_id := none, key := some "sess/abc" }
    none none =
    .ok { artifact_id := "abc", filename := none, mime := "text/plain",
          bytes := 3, summary := none, stored_at := "2025-06-01T00:00:00Z",
          session_id := none, meta := [] } := by decide

example : _info {} none none = .error (.keyError "artifact_id") := by decide

example : _info { key := some "trail/" } (some "fb") none =
    _info {} (some "fb") none := by decide

/-- An exception raised by a backend (`ArtifactStore`) call:
`providerError` is `chuk_artifacts.exceptions.ProviderError`, `otherError`
any other exception.  The payload is `str(exc)`. -/
inductive PyErr where
  | providerError (msg : String)
  | otherError (msg : String)
deriving DecidableEq, Repr

/-- Python `str(exc)` of a backend exception. -/
def PyErr.msg : PyErr → String
  | .providerError m => m
  | .otherError m => m

/-- How a tool invocation fails from the caller's point of view:
`valueError` is a `raise ValueError(msg)` performed by the tool itself,
`uncaught` is an exception that propagates out of the tool unhandled. -/
inductive ToolError where
  | valueError (msg : String)
  | uncaught (msg : String)
deriving DecidableEq, Repr

/-- A backend call performed by a tool, recorded in an execution trace. -/
inductive Event where
  | backendWrite
  | backendMetadata (artifact_id : String)
  | backendDelete (artifact_id : String)
  | backendStore
  | backendPresignShort (artifact_id : String)
  | backendCopy (artifact_id : String) (target_session_id : Option String)
deriving DecidableEq, Repr

/-- Oracle for the external `ArtifactStore`: the outcome of each backend
call a tool may perform.  `write_file_resp` is the single
overwrite-or-create `STORE.write_file` attempt, `store_resp` the
`STORE.store` call used by the recovery path and by uploads. -/
structure Backend where
  write_file_resp : Except PyErr String
  store_resp : Except PyErr String
  metadata : String → Except PyErr RawMeta
  delete_resp : String → Except PyErr Bool
  presign_short_resp : String → Except PyErr String
  presign_medium_resp : String → Except PyErr String
  retrieve_resp : String → Except PyErr (List Nat)
  list_by_prefix_resp : String → String → Nat → Except PyErr (List RawMeta)
  get_directory_contents_resp :
    String → String → Nat → Except PyErr (List RawMeta)
  copy_resp : String → Option String → Option String →
    List (String × String) → Except PyErr String
  read_text_resp : String → String → Except PyErr String
  read_bin_resp : String → Except PyErr (List Nat)

/-- Result of `delete_file` (`models.DeleteFileResult`). -/
structure DeleteFileResult where
  success : Bool
  artifact_id : String
deriving DecidableEq, Repr

/-- Embedding of `tools.delete_file`: call `STORE.delete` and echo the
requested id; any backend exception becomes a `ValueError`. -/
def delete_file (B : Backend) (artifact_id : String) :
    Except ToolError DeleteFileResult :=
  match B.delete_resp artifact_id with
  | .error e => .error (.valueError e.msg)
  | .ok success => .ok { success := success, artifact_id := artifact_id }

/-- Embedding of `tools.get_metadata`: look up raw metadata (errors become
`ValueError`) and normalize it with `fallback_id` the requested id and
`fallback_session_id` the record's own `session_id`; a normalization
`KeyError` propagates uncaught. -/
def get_metadata (B : Backend) (artifact_id : String) :
    Except ToolError ArtifactInfo :=
  match B.metadata artifact_id with
  | .error e => .error (.valueError e.msg)
  | .ok raw =>
    match _info raw (some artifact_id) raw.session_id with
    | .error (.keyError f) => .error (.uncaught f)
    | .ok i => .ok i

/-- The base64 alphabet, sextet value order. -/
def b64Alphabet : List Char :=
  "ABCDEFGHIJKLMNOPQRSTUVWXYZabcdefghijklmnopqrstuvwxyz0123456789+/".toList

/-- Character for a sextet value. -/
def sextetChar (n : Nat) : Char :=
  b64Alphabet.getD n 'A'

/-- Index of a character in a list, starting at `i`. -/
def indexFrom (c : Char) : List Char → Nat → Option Nat
  | [], _ => none
  | a :: rest, i => if a = c then some i else indexFrom c rest (i + 1)

/-- Sextet value of a base64 alphabet character. -/
def charSextet (c : Char) : Option Nat :=
  indexFrom c b64Alphabet 0

/-- RFC 4648 base64 encoding of a byte list, as characters. -/
def b64EncodeAux : List Nat → List Char
  | a :: b :: c :: rest =>
    sextetChar (a / 4) :: sextetChar (a % 4 * 16 + b / 16) ::
      sextetChar (b % 16 * 4 + c / 64) :: sextetChar (c % 64) ::
      b64EncodeAux rest
  | [a, b] =>
    [sextetChar (a / 4), sextetChar (a % 4 * 16 + b / 16),
     sextetChar (b % 16 * 4), '=']
  | [a] =>
    [sextetChar (a / 4), sextetChar (a % 4 * 16), '=', '=']
  | [] => []

/-- Python `base64.b64encode(data).decode()`. -/
def b64Encode (data : List Nat) : String :=
  String.mk (b64EncodeAux data)

/-- RFC 4648 base64 decoding of a character list back to bytes. -/
def b64DecodeAux : List Char → Option (List Nat)
  | [] => some []
  | c1 :: c2 :: c3 :: c4 :: rest =>
    (charSextet c1).bind fun s1 =>
    (charSextet c2).bind fun s2 =>
    if c3 = '=' then
      if c4 = '=' ∧ rest = [] then some [s1 * 4 + s2 / 16] else none
    else
      (charSextet c3).bind fun s3 =>
      if c4 = '=' then
        if rest = [] then some [s1 * 4 + s2 / 16, s2 % 16 * 16 + s3 / 4]
        else none
      else
        (charSextet c4).bind fun s4 =>
        (b64DecodeAux rest).bind fun tail =>
        some ((s1 * 4 + s2 / 16) :: (s2 % 16 * 16 + s3 / 4) ::
          (s3 % 4 * 64 + s4) :: tail)
  | _ => none

/-- Base64 decoding of a string. -/
def b64Decode (s : String) : Option (List Nat) :=
  b64DecodeAux s.toList

example : b64Encode [104, 105] = "aGk=" := by decide
example : b64Decode "aGk=" = some [104, 105] := by decide
example : b64Encode [104, 101, 121] = "aGV5" := by decide

/-- Delivery payload of `_presign_or_inline`. -/
structure Delivery where
  download_url : Option String
  data_base64 : Option String
deriving DecidableEq, Repr

/-- Embedding of `tools._presign_or_inline`: if presigning is requested,
try `STORE.presign_medium` and on any exception fall through (logged only)
to inline delivery; inline delivery retrieves the payload (a retrieve
failure propagates uncaught) and base64-encodes it. -/
def _presign_or_inline (B : Backend) (artifact_id : String)
    (presign : Bool) : Except PyErr Delivery :=
  let inline : Except PyErr Delivery :=
    match B.retrieve_resp artifact_id with
    | .error e => .error e
    | .ok data => .ok { download_url := none
                        data_base64 := some (b64Encode data) }
  if presign then
    match B.presign_medium_resp artifact_id with
    | .ok url => .ok { download_url := some url, data_base64 := none }
    | .error _ => inline
  else inline

/-- Result of `list_session_files` (`models.ListSessionFilesResult`). -/
structure ListSessionFilesResult where
  count : Nat
  session_id : String
  artifacts : List ArtifactInfo
deriving DecidableEq, Repr

/-- The list comprehension `[await _info(m, fallback_session_id=sess) for m
in meta_list]`: normalize each record, stopping at the first failure. -/
def infoList (ms : List RawMeta) (sess : String) :
    Except InfoError (List ArtifactInfo) :=
  match ms with
  | [] => .ok []
  | m :: rest =>
    match _info m none (some sess) with
    | .error e => .error e
    | .ok a =>
      match infoList rest sess with
      | .error e => .error e
      | .ok tailInfos => .ok (a :: tailInfos)

/-- Embedding of `tools.list_session_files` with `sess` the effective
session returned by `validate_session_parameter`: list raw records by
prefix, normalize each with `fallback_session_id = sess`; any exception in
that block becomes a `ValueError`. -/
def list_session_files (B : Backend) (sess : String)
    ( pfx : Option String := none) : Except ToolError ListSessionFilesResult :=
  match B.list_by_prefix_resp sess ((pyOr pfx (some "")).getD "") 1000 with
  | .error e => .error (.valueError ("Failed to list session files: " ++ e.msg))
  | .ok metas =>
    match infoList metas sess with
    | .error (.keyError f) =>
      .error (.valueError ("Failed to list session files: " ++ f))
    | .ok arts =>
      .ok { count := arts.length, session_id := sess, artifacts := arts }

/-- Result of `list_directory` (`models.ListDirectoryResult`). -/
structure ListDirectoryResult where
  count : Nat
  session_id : String
  directory : String
  artifacts : List ArtifactInfo
deriving DecidableEq, Repr

/-- Embedding of `tools.list_directory` with `sess` the effective session:
list raw records in the pseudo-directory, normalize each with
`fallback_session_id = sess`; any exception in that block becomes a
`ValueError`. -/
def list_directory (B : Backend) (sess : String) (directory : String) :
    Except ToolError ListDirectoryResult :=
  match B.get_directory_contents_resp sess directory 1000 with
  | .error e => .error (.valueError ("Failed to list directory: " ++ e.msg))
  | .ok metas =>
    match infoList metas sess with
    | .error (.keyError f) =>
      .error (.valueError ("Failed to list directory: " ++ f))
    | .ok arts =>
      .ok { count := arts.length, session_id := sess,
            directory := directory, artifacts := arts }

/-- Result of `download_file` (`models.DownloadFileResult`). -/
structure DownloadFileResult where
  artifact : ArtifactInfo
  download_url : Option String
  data_base64 : Option String
deriving DecidableEq, Repr

/-- Embedding of `tools.download_file`: fetch metadata (errors become
`ValueError`), normalize with `fallback_id` the requested id and
`fallback_session_id` the record's own `session_id` (both the
normalization `KeyError` and a retrieve failure inside
`_presign_or_inline` propagate uncaught), then attach the delivery. -/
def download_file (B : Backend) (artifact_id : String)
    (presign : Bool := true) : Except ToolError DownloadFileResult :=
  match B.metadata artifact_id with
  | .error e => .error (.valueError e.msg)
  | .ok raw =>
    match _info raw (some artifact_id) raw.session_id with
    | .error (.keyError f) => .error (.uncaught f)
    | .ok i =>
      match _presign_or_inline B artifact_id presign with
      | .error e => .error (.uncaught e.msg)
      | .ok d =>
        .ok { artifact := i, download_url := d.download_url,
              data_base64 := d.data_base64 }

/-- Result of `read_file` (`models.ReadFileResult`). -/
structure ReadFileResult where
  artifact_id : String
  content_type : String
  content : Option String
  content_base64 : Option String
  encoding : Option String
  bytes : Option Nat
deriving DecidableEq, Repr

/-- Embedding of `tools.read_file`: text mode returns the decoded text and
its encoding; binary mode returns the base64-encoded payload and its byte
length.  Any backend exception becomes a `ValueError`. -/
def read_file (B : Backend) (artifact_id : String) (as_text : Bool := true)
    (encoding : String := "utf-8") : Except ToolError ReadFileResult :=
  if as_text then
    match B.read_text_resp artifact_id encoding with
    | .error e => .error (.valueError e.msg)
    | .ok content =>
      .ok { artifact_id := artifact_id, content_type := "text",
            content := some content, content_base64 := none,
            encoding := some encoding, bytes := none }
  else
    match B.read_bin_resp artifact_id with
    | .error e => .error (.valueError e.msg)
    | .ok data =>
      .ok { artifact_id := artifact_id, content_type := "binary",
            content := none, content_base64 := some (b64Encode data),
            encoding := none, bytes := some data.length }

/-- Result of `copy_file` (`models.CopyFileResult`). -/
structure CopyFileResult extends ArtifactInfo where
  source_artifact_id : String
  operation : String
deriving DecidableEq, Repr

/-- Embedding of `tools.copy_file`: invoke the backend copy with
`target_session_id=None` (recorded in the trace), fetch the new record's
metadata, normalize with the record's own session as fallback, and wrap
with `source_artifact_id` the requested id and `operation="copy"`. -/
def copy_file (B : Backend) (artifact_id : String)
    (filename : Option String := none)
    (meta_arg : List (String × String) := []) :
    List Event × Except ToolError CopyFileResult :=
  let tr := [Event.backendCopy artifact_id none]
  match B.copy_resp artifact_id filename none meta_arg with
  | .error e => (tr, .error (.valueError e.msg))
  | .ok new_id =>
    let tr := tr ++ [Event.backendMetadata new_id]
    match B.metadata new_id with
    | .error e => (tr, .error (.valueError e.msg))
    | .ok raw =>
      match _info raw (some new_id) raw.session_id with
      | .error (.keyError f) => (tr, .error (.uncaught f))
      | .ok i =>
        (tr, .ok { toArtifactInfo := i, source_artifact_id := artifact_id,
                   operation := "copy" })

/-- Result of `write_file` (`models.WriteFileResult`). -/
structure WriteFileResult extends ArtifactInfo where
  download_url : Option String
  operation : String
deriving DecidableEq, Repr

/-- The guard of the graceful-overwrite fallback branch in
`tools.write_file`: `overwrite_artifact_id` is truthy, the exception is a
`ProviderError`, and its message contains both marker substrings. -/
def recognizedConflict (overwrite_artifact_id : Option String)
    (e : PyErr) : Bool :=
  match e with
  | .providerError msg =>
    truthy overwrite_artifact_id &&
    strContains msg "Cross-session overwrite not permitted" &&
    strContains msg "belongs to session \x27None\x27"
  | .otherError _ => false

/-- The first backend exception raised inside the `try` block of
`tools.write_file` (the `STORE.write_file` attempt or the subsequent
`STORE.metadata` read), if any. -/
def attemptErr (B : Backend) : Option PyErr :=
  match B.write_file_resp with
  | .error e => some e
  | .ok art_id =>
    match B.metadata art_id with
    | .error e => some e
    | .ok _ => none

/-- Embedding of `tools._store_and_build_info` as used by the recovery
path of `write_file`: `STORE.store` fresh content under the caller's
session, read the new record's metadata and normalize it with the new id
and the caller's session as fallbacks.  Exceptions raised here (inside the
`except ProviderError` handler of `write_file`) propagate uncaught. -/
def _store_and_build_info (B : Backend) (sess : String) :
    List Event × Except ToolError (String × ArtifactInfo) :=
  match B.store_resp with
  | .error e => ([.backendStore], .error (.uncaught e.msg))
  | .ok art_id =>
    match B.metadata art_id with
    | .error e =>
      ([.backendStore, .backendMetadata art_id], .error (.uncaught e.msg))
    | .ok raw =>
      match _info raw (some art_id) (some sess) with
      | .error (.keyError f) =>
        ([.backendStore, .backendMetadata art_id], .error (.uncaught f))
      | .ok i =>
        ([.backendStore, .backendMetadata art_id], .ok (art_id, i))

/-- Python `try: x except Exception: log` followed by `r` either way: the
outcome of `x` is recorded-and-ignored. -/
def discardOutcome {α β : Type} (x : Except PyErr α) (r : β) : β :=
  match x with
  | .ok _ => r
  | .error _ => r

/-- Tail of `tools.write_file` shared by both paths: `STORE.presign_short`
on the written id (failure yields a null url) and the result tagged with
`operation = "overwrite" if overwrite_artifact_id else "create"`. -/
def write_file_finish (B : Backend) (oid : Option String) (tr : List Event)
    (art_id : String) (i : ArtifactInfo) :
    List Event × Except ToolError WriteFileResult :=
  let url := match B.presign_short_resp art_id with
    | .ok u => some u
    | .error _ => none
  (tr ++ [Event.backendPresignShort art_id],
    .ok { toArtifactInfo := i, download_url := url,
          operation := if truthy oid then "overwrite" else "create" })

/-- The graceful-overwrite fallback body of `tools.write_file`:
`STORE.delete` the old id with the outcome logged and discarded, then
`_store_and_build_info` and the shared tail. -/
def write_file_recover (B : Backend) (sess : String) (oid : Option String)
    (tr : List Event) : List Event × Except ToolError WriteFileResult :=
  let tr1 := tr ++ [Event.backendDelete (oid.getD "")]
  discardOutcome (B.delete_resp (oid.getD ""))
    (match _store_and_build_info B sess with
     | (tr2, .error e) => (tr1 ++ tr2, .error e)
     | (tr2, .ok (art_id, i)) => write_file_finish B oid (tr1 ++ tr2) art_id i)

/-- The `except ProviderError` handler of `tools.write_file`: a recognized
legacy-session conflict enters the recovery path, any other
`ProviderError` becomes a `ValueError`, and any non-`ProviderError`
exception propagates uncaught. -/
def write_file_handleExc (B : Backend) (sess : String) (oid : Option String)
    (tr : List Event) (e : PyErr) :
    List Event × Except ToolError WriteFileResult :=
  match e with
  | .providerError msg =>
    if recognizedConflict oid (.providerError msg) then
      write_file_recover B sess oid tr
    else (tr, .error (.valueError msg))
  | .otherError msg => (tr, .error (.uncaught msg))

/-- Embedding of `tools.write_file` with `sess` the effective session and
`oid` the `overwrite_artifact_id`.  The backend-call arguments (content,
filename, mime, summary, meta, encoding) are absorbed by the oracle;
`summary or f"Written file: ..."` only changes what is passed to the
backend.  Fast path: backend `write_file`, `metadata`, `_info` (a
`KeyError` propagates uncaught); a `ProviderError` raised in that block
goes to `write_file_handleExc`. -/
def write_file (B : Backend) (sess : String) (oid : Option String := none) :
    List Event × Except ToolError WriteFileResult :=
  match B.write_file_resp with
  | .error e => write_file_handleExc B sess oid [Event.backendWrite] e
  | .ok art_id =>
    match B.metadata art_id with
    | .error e =>
      write_file_handleExc B sess oid
        [Event.backendWrite, Event.backendMetadata art_id] e
    | .ok raw =>
      match _info raw (some art_id) (some sess) with
      | .error (.keyError f) =>
        ([Event.backendWrite, Event.backendMetadata art_id],
         .error (.uncaught f))
      | .ok i =>
        write_file_finish B oid
          [Event.backendWrite, Event.backendMetadata art_id] art_id i

/-- The conflict message the real backend emits for a legacy-session
overwrite, as matched by `tools.write_file`. -/
def conflictMsg : String :=
  "Cross-session overwrite not permitted. Artifact old1 belongs to session \x27None\x27, cannot overwrite from session \x27team42\x27."

/-- A backend oracle on which every call succeeds. -/
def okBackend : Backend :=
  { write_file_resp := .ok "w1"
    store_resp := .ok "n1"
    metadata := fun aid => .ok { sampleRaw with artifact_id := some aid }
    delete_resp := fun _ => .ok true
    presign_short_resp := fun aid => .ok ("https://example/" ++ aid)
    presign_medium_resp := fun aid => .ok ("https://example/medium/" ++ aid)
    retrieve_resp := fun _ => .ok [104, 105]
    list_by_prefix_resp := fun _ _ _ => .ok [sampleRaw]
    get_directory_contents_resp := fun _ _ _ => .ok [sampleRaw]
    copy_resp := fun _ _ _ _ => .ok "c1"
    read_text_resp := fun _ _ => .ok "hi"
    read_bin_resp := fun _ => .ok [104, 105] }

/-- A backend oracle whose overwrite attempt raises the legacy-session
conflict. -/
def conflictBackend : Backend :=
  { okBackend with write_file_resp := .error (.providerError conflictMsg) }

theorem truthy_none : truthy none = false := rfl

theorem truthy_some (s : String) : truthy (some s) = decide (s ≠ "") := rfl

theorem pyOr_pos (a b : Option String) (h : truthy a) : pyOr a b = a := by
  simp [pyOr, h]

theorem pyOr_neg (a b : Option String) (h : ¬ truthy a) : pyOr a b = b := by
  simp [pyOr, h]

/-- The id `_info` derives, before the emptiness check. -/
def chainId (m : RawMeta) (fid : Option String) : Option String :=
  pyOr (pyOr (pyOr m.artifact_id m.id)
    (some (lastSegment (m.key.getD "")))) fid

theorem info_ok_fields {m : RawMeta} {fid fs : Option String}
    {a : ArtifactInfo} (h : _info m fid fs = Except.ok a) :
    a.artifact_id = (chainId m fid).getD "" ∧
    a.session_id = pyOr m.session_id fs := by
  simp only [_info] at h
  repeat' split at h
  all_goals cases h
  exact ⟨rfl, rfl⟩

theorem info_missing_id {m : RawMeta} {fid fs : Option String}
    (h : ¬ truthy (chainId m fid)) :
    _info m fid fs = Except.error (InfoError.keyError "artifact_id") := by
  unfold _info
  rw [if_pos]
  exact h

/-- C3: `_info` resolves `artifact_id` by the ordered chain raw
`artifact_id` → raw `id` → last path segment of raw `key` → `fallback_id`,
and when every source is empty or absent it fails with the
missing-identifier `KeyError` instead of producing a descriptor. -/
theorem info_artifact_id_resolution (m : RawMeta) (fid fs : Option String) :
    (∀ a, _info m fid fs = Except.ok a →
      a.artifact_id =
        (if truthy m.artifact_id then m.artifact_id.getD ""
         else if truthy m.id then m.id.getD ""
         else if lastSegment (m.key.getD "") ≠ "" then
           lastSegment (m.key.getD "")
         else fid.getD "")) ∧
    ((¬ truthy m.artifact_id ∧ ¬ truthy m.id ∧
        lastSegment (m.key.getD "") = "" ∧ ¬ truthy fid) →
      _info m fid fs = Except.error (InfoError.keyError "artifact_id")) := by
  have hchain : ∀ h1 : ¬ truthy m.artifact_id, ∀ h2 : ¬ truthy m.id,
      chainId m fid =
        pyOr (some (lastSegment (m.key.getD ""))) fid := by
    intro h1 h2
    unfold chainId
    rw [pyOr_neg _ _ h1, pyOr_neg _ _ h2]
  constructor
  · intro a ha
    have hid := (info_ok_fields ha).1
    by_cases h1 : truthy m.artifact_id
    · have : chainId m fid = m.artifact_id := by
        unfold chainId
        rw [pyOr_pos _ _ h1, pyOr_pos _ _ h1, pyOr_pos _ _ h1]
      rw [if_pos h1]
      rw [this] at hid
      exact hid
    · by_cases h2 : truthy m.id
      · have : chainId m fid = m.id := by
          unfold chainId
          rw [pyOr_neg _ _ h1, pyOr_pos _ _ h2, pyOr_pos _ _ h2]
        rw [if_neg h1, if_pos h2]
        rw [this] at hid
        exact hid
      · rw [hchain h1 h2] at hid
        by_cases h3 : lastSegment (m.key.getD "") ≠ ""
        · rw [if_neg h1, if_neg h2, if_pos h3]
          rw [pyOr_pos _ _ (by simp [truthy_some, h3])] at hid
          exact hid
        · rw [if_neg h1, if_neg h2, if_neg h3]
          rw [pyOr_neg _ _ (by simp [truthy_some]; simpa using h3)] at hid
          exact hid
  · rintro ⟨h1, h2, h3, h4⟩
    apply info_missing_id
    rw [hchain h1 h2, pyOr_neg _ _ (by simp [truthy_some, h3])]
    exact h4

/-- Concrete witness input for C3: no id source at all. -/
def noIdRaw : RawMeta :=
  { sampleRaw with artifact_id := none, id := none, key := some "a/" }

/-- Witness for C3 at concrete inputs: a record whose only id source is
`artifact_id` resolves to it, and a record with no id source fails. -/
theorem info_artifact_id_resolution_witness :
    (truthy sampleRaw.artifact_id ∧
      _info sampleRaw none none =
        Except.ok { artifact_id := "a1", filename := none,
                    mime := "text/plain", bytes := 3, summary := none,
                    stored_at := "2025-06-01T00:00:00Z", session_id := none,
                    meta := [] }) ∧
    (¬ truthy noIdRaw.artifact_id ∧ ¬ truthy noIdRaw.id ∧
      lastSegment (noIdRaw.key.getD "") = "" ∧ ¬ truthy (none : Option String)) ∧
    _info noIdRaw none none = Except.error (InfoError.keyError "artifact_id") :=
  ⟨⟨by decide, by decide⟩, ⟨by decide, by decide, by decide, by decide⟩,
    (info_artifact_id_resolution noIdRaw none none).2
      ⟨by decide, by decide, by decide, by decide⟩⟩

/-- C5: normalization uses `fallback_session_id` exactly when the raw
record's `session_id` is absent or empty; a non-empty raw `session_id` is
kept and the fallback ignored. -/
theorem info_session_fallback (m : RawMeta) (fid : Option String)
    (S : String) :
    (∀ a, ¬ truthy m.session_id → _info m fid (some S) = Except.ok a →
      a.session_id = some S) ∧
    (∀ a fs, truthy m.session_id → _info m fid fs = Except.ok a →
      a.session_id = m.session_id) := by
  constructor
  · intro a h ha
    have := (info_ok_fields ha).2
    rwa [pyOr_neg _ _ h] at this
  · intro a fs h ha
    have := (info_ok_fields ha).2
    rwa [pyOr_pos _ _ h] at this

/-- The descriptor `_info` produces for `sampleRaw` with fallback session
`"s7"`. -/
def sampleInfoS7 : ArtifactInfo :=
  { artifact_id := "a1", filename := none, mime := "text/plain", bytes := 3,
    summary := none, stored_at := "2025-06-01T00:00:00Z",
    session_id := some "s7", meta := [] }

/-- Witness for C5 at a concrete input: `sampleRaw` has no raw session, so
the fallback `"s7"` appears in the descriptor. -/
theorem info_session_fallback_witness :
    (¬ truthy sampleRaw.session_id) ∧ sampleInfoS7.session_id = some "s7" :=
  ⟨by decide,
    (info_session_fallback sampleRaw none "s7").1 sampleInfoS7 (by decide)
      (by decide)⟩

/-- C4: every result of the delivery selector has exactly one of
`download_url` / `data_base64` non-null, and when presigning is requested
but the presign call throws, the error is not surfaced: delivery falls
back to inline, with a null url and a non-null base64 payload. -/
theorem presign_or_inline_exclusive (B : Backend) (aid : String)
    (p : Bool) :
    (∀ d, _presign_or_inline B aid p = Except.ok d →
      (d.download_url ≠ none ∧ d.data_base64 = none) ∨
      (d.download_url = none ∧ d.data_base64 ≠ none)) ∧
    (∀ e data, B.presign_medium_resp aid = Except.error e →
      B.retrieve_resp aid = Except.ok data →
      _presign_or_inline B aid true =
        Except.ok { download_url := none,
                    data_base64 := some (b64Encode data) }) := by
  constructor
  · intro d hd
    simp only [_presign_or_inline] at hd
    repeat' split at hd
    all_goals cases hd
    · left
      exact ⟨by simp, rfl⟩
    all_goals right
    all_goals exact ⟨rfl, by simp⟩
  · intro e data he hdata
    simp [_presign_or_inline, he, hdata]

/-- A backend on which the presign attempt raises. -/
def presignFailBackend : Backend :=
  { okBackend with presign_medium_resp := fun _ => .error (.otherError "boom") }

/-- Witness for C4 at a concrete input: presign raises, so `download_file`
delivery falls back to inline base64 of the payload `"hi"`. -/
theorem presign_or_inline_exclusive_witness :
    presignFailBackend.presign_medium_resp "a1" =
        Except.error (PyErr.otherError "boom") ∧
    presignFailBackend.retrieve_resp "a1" = Except.ok [104, 105] ∧
    b64Encode [104, 105] = "aGk=" ∧
    _presign_or_inline presignFailBackend "a1" true =
      Except.ok { download_url := none, data_base64 := some (b64Encode [104, 105]) } :=
  ⟨rfl, rfl, rfl,
    (presign_or_inline_exclusive presignFailBackend "a1" true).2
      (PyErr.otherError "boom") [104, 105] rfl rfl⟩

/-- C6: when the backend reports nothing-to-delete by returning `False`,
`delete_file` returns `success = false` with the requested id echoed, and
does not raise. -/
theorem delete_file_idempotent (B : Backend) (aid : String)
    (h : B.delete_resp aid = Except.ok false) :
    delete_file B aid =
      Except.ok { success := false, artifact_id := aid } := by
  unfold delete_file
  rw [h]

/-- A backend on which delete reports nothing-to-delete. -/
def goneBackend : Backend :=
  { okBackend with delete_resp := fun _ => .ok false }

/-- Witness for C6 at a concrete input. -/
theorem delete_file_idempotent_witness :
    goneBackend.delete_resp "gone" = Except.ok false ∧
    delete_file goneBackend "gone" =
      Except.ok { success := false, artifact_id := "gone" } :=
  ⟨rfl, delete_file_idempotent goneBackend "gone" rfl⟩

theorem charSextet_sextetChar : ∀ s, s < 64 →
    charSextet (sextetChar s) = some s := by decide

theorem sextetChar_ne_pad : ∀ s, s < 64 → sextetChar s ≠ '=' := by decide

theorem b64_decode_three (a b c : Nat) (ha : a < 256) (hb : b < 256)
    (hc : c < 256) (rest : List Char) :
    b64DecodeAux (sextetChar (a / 4) :: sextetChar (a % 4 * 16 + b / 16) ::
      sextetChar (b % 16 * 4 + c / 64) :: sextetChar (c % 64) :: rest) =
    (b64DecodeAux rest).bind fun tail => some (a :: b :: c :: tail) := by
  have h1 := charSextet_sextetChar (a / 4) (by omega)
  have h2 := charSextet_sextetChar (a % 4 * 16 + b / 16) (by omega)
  have h3 := charSextet_sextetChar (b % 16 * 4 + c / 64) (by omega)
  have h4 := charSextet_sextetChar (c % 64) (by omega)
  have n3 := sextetChar_ne_pad (b % 16 * 4 + c / 64) (by omega)
  have n4 := sextetChar_ne_pad (c % 64) (by omega)
  have ea : a / 4 * 4 + (a % 4 * 16 + b / 16) / 16 = a := by omega
  have eb : (a % 4 * 16 + b / 16) % 16 * 16 + (b % 16 * 4 + c / 64) / 4 = b := by
    omega
  have ec : (b % 16 * 4 + c / 64) % 4 * 64 + c % 64 = c := by omega
  simp only [b64DecodeAux, h1, h2, h3, h4, Option.some_bind, if_neg n3,
    if_neg n4, ea, eb, ec]

theorem b64_decode_two (a b : Nat) (ha : a < 256) (hb : b < 256) :
    b64DecodeAux [sextetChar (a / 4), sextetChar (a % 4 * 16 + b / 16),
      sextetChar (b % 16 * 4), '='] = some [a, b] := by
  have h1 := charSextet_sextetChar (a / 4) (by omega)
  have h2 := charSextet_sextetChar (a % 4 * 16 + b / 16) (by omega)
  have h3 := charSextet_sextetChar (b % 16 * 4) (by omega)
  have n3 := sextetChar_ne_pad (b % 16 * 4) (by omega)
  have ea : a / 4 * 4 + (a % 4 * 16 + b / 16) / 16 = a := by omega
  have eb : (a % 4 * 16 + b / 16) % 16 * 16 + b % 16 * 4 / 4 = b := by omega
  simp only [b64DecodeAux, h1, h2, h3, Option.some_bind, if_neg n3, ea, eb]
  simp

theorem b64_decode_one (a : Nat) (ha : a < 256) :
    b64DecodeAux [sextetChar (a / 4), sextetChar (a % 4 * 16), '=', '='] =
      some [a] := by
  have h1 := charSextet_sextetChar (a / 4) (by omega)
  have h2 := charSextet_sextetChar (a % 4 * 16) (by omega)
  have ea : a / 4 * 4 + a % 4 * 16 / 16 = a := by omega
  simp only [b64DecodeAux, h1, h2, Option.some_bind, ea]
  simp

/-- Decoding inverts encoding on genuine byte lists. -/
theorem b64_roundtrip (l : List Nat) (h : ∀ x ∈ l, x < 256) :
    b64DecodeAux (b64EncodeAux l) = some l := by
  induction l using b64EncodeAux.induct with
  | case1 a b c rest ih =>
    have ha : a < 256 := h a (by simp)
    have hb : b < 256 := h b (by simp)
    have hc : c < 256 := h c (by simp)
    rw [b64EncodeAux, b64_decode_three a b c ha hb hc,
      ih (fun x hx => h x (by simp [hx]))]
    rfl
  | case2 a b =>
    have ha : a < 256 := h a (by simp)
    have hb : b < 256 := h b (by simp)
    rw [b64EncodeAux, b64_decode_two a b ha hb]
  | case3 a =>
    have ha : a < 256 := h a (by simp)
    rw [b64EncodeAux, b64_decode_one a ha]
  | case4 => rfl

/-- C10: a binary `read_file` result carries `content_type="binary"`,
null `content`/`encoding`, the base64 of the stored payload and its exact
byte length — and base64-decoding that payload returns exactly those
bytes; a text `read_file` result carries `content` and `encoding` with
null `content_base64`/`bytes`. -/
theorem read_file_modes (B : Backend) (aid enc : String) :
    (∀ r data, B.read_bin_resp aid = Except.ok data →
      (∀ x ∈ data, x < 256) →
      read_file B aid false enc = Except.ok r →
      r.content_type = "binary" ∧ r.content = none ∧ r.encoding = none ∧
      r.content_base64 = some (b64Encode data) ∧
      r.bytes = some data.length ∧
      b64Decode (b64Encode data) = some data) ∧
    (∀ r, read_file B aid true enc = Except.ok r →
      r.content_type = "text" ∧ r.content ≠ none ∧ r.encoding = some enc ∧
      r.content_base64 = none ∧ r.bytes = none) := by
  constructor
  · intro r data hdata hbytes hr
    simp only [read_file, Bool.false_eq_true, if_false, hdata] at hr
    cases hr
    refine ⟨rfl, rfl, rfl, rfl, rfl, ?_⟩
    exact b64_roundtrip data hbytes
  · intro r hr
    simp only [read_file, if_true] at hr
    split at hr
    · cases hr
    · cases hr
      exact ⟨rfl, by simp, rfl, rfl, rfl⟩

/-- Witness for C10 at a concrete input: payload `"hi"` = bytes
`[104, 105]`. -/
theorem read_file_modes_witness :
    okBackend.read_bin_resp "a1" = Except.ok [104, 105] ∧
    read_file okBackend "a1" false "utf-8" =
      Except.ok { artifact_id := "a1", content_type := "binary",
                  content := none, content_base64 := some "aGk=",
                  encoding := none, bytes := some 2 } ∧
    b64Decode (b64Encode [104, 105]) = some [104, 105] :=
  ⟨rfl, by decide,
    ((read_file_modes okBackend "a1" "utf-8").1
      { artifact_id := "a1", content_type := "binary", content := none,
        content_base64 := some "aGk=", encoding := none, bytes := some 2 }
      [104, 105] rfl (by decide) (by decide)).2.2.2.2.2⟩

theorem pyOr_self (x : Option String) : pyOr x x = x := by
  unfold pyOr
  split <;> rfl

theorem pyOr_some_ne_none (x : Option String) (s : String) :
    pyOr x (some s) ≠ none := by
  unfold pyOr
  split
  · rename_i h
    cases x
    · simp [truthy] at h
    · simp
  · simp

theorem infoList_session_ne_none {ms : List RawMeta} {sess : String}
    {arts : List ArtifactInfo} (h : infoList ms sess = Except.ok arts) :
    ∀ a ∈ arts, a.session_id ≠ none := by
  induction ms generalizing arts with
  | nil =>
    simp only [infoList] at h
    cases h
    intro a ha
    simp at ha
  | cons m rest ih =>
    simp only [infoList] at h
    split at h
    · cases h
    · rename_i a0 hinfo
      split at h
      · cases h
      · rename_i tailInfos htail
        cases h
        intro a ha
        rcases List.mem_cons.mp ha with rfl | hmem
        · rw [(info_ok_fields hinfo).2]
          exact pyOr_some_ne_none _ _
        · exact ih htail a hmem

/-- C7: no read path returns a silently-null session when one is known:
artifacts listed under a session always carry a non-null `session_id`
(the lookup session is the normalization fallback), and both
`download_file` and `get_metadata` return the session recovered from the
object's own metadata record, which they pass as their fallback. -/
theorem read_paths_session_fallback (B : Backend) (sess aid : String)
    ( pfx : Option String) (p : Bool) :
    (∀ r, list_session_files B sess pfx = Except.ok r →
      ∀ a ∈ r.artifacts, a.session_id ≠ none) ∧
    (∀ r dir, list_directory B sess dir = Except.ok r →
      ∀ a ∈ r.artifacts, a.session_id ≠ none) ∧
    (∀ r raw, B.metadata aid = Except.ok raw →
      download_file B aid p = Except.ok r →
      r.artifact.session_id = raw.session_id) ∧
    (∀ r raw, B.metadata aid = Except.ok raw →
      get_metadata B aid = Except.ok r →
      r.session_id = raw.session_id) := by
  refine ⟨?_, ?_, ?_, ?_⟩
  · intro r hr
    simp only [list_session_files] at hr
    split at hr
    · cases hr
    · split at hr
      · cases hr
      · rename_i arts harts
        cases hr
        exact infoList_session_ne_none harts
  · intro r dir hr
    simp only [list_directory] at hr
    split at hr
    · cases hr
    · split at hr
      · cases hr
      · rename_i arts harts
        cases hr
        exact infoList_session_ne_none harts
  · intro r raw hmeta hr
    simp only [download_file, hmeta] at hr
    split at hr
    · cases hr
    · rename_i i hinfo
      split at hr
      · cases hr
      · cases hr
        show i.session_id = raw.session_id
        rw [(info_ok_fields hinfo).2, pyOr_self]
  · intro r raw hmeta hr
    simp only [get_metadata, hmeta] at hr
    split at hr
    · cases hr
    · rename_i i hinfo
      cases hr
      rw [(info_ok_fields hinfo).2, pyOr_self]

/-- The descriptor `_info` produces for `sampleRaw` with fallback session
`"s1"`. -/
def sampleInfoS1 : ArtifactInfo :=
  { sampleInfoS7 with session_id := some "s1" }

/-- The listing result `okBackend` yields for session `"s1"`. -/
def sampleListS1 : ListSessionFilesResult :=
  { count := 1, session_id := "s1", artifacts := [sampleInfoS1] }

/-- Witness for C7 at concrete inputs: listing yields a descriptor whose
session is the lookup session, hence non-null. -/
theorem read_paths_session_fallback_witness :
    list_session_files okBackend "s1" none = Except.ok sampleListS1 ∧
    sampleInfoS1 ∈ sampleListS1.artifacts ∧
    sampleInfoS1.session_id ≠ none :=
  ⟨by decide, by decide,
    (read_paths_session_fallback okBackend "s1" "x" none true).1
      sampleListS1 (by decide) sampleInfoS1 (by decide)⟩

/-- C9: the backend copy is always invoked with an unset target session
(every copy event in the trace has `target_session_id = none`), and a
successful result carries the new id as `artifact_id`, the requested id as
`source_artifact_id`, and `operation = "copy"`. -/
theorem copy_file_same_session (B : Backend) (aid : String)
    (fname : Option String) (margs : List (String × String)) :
    (∀ a t, Event.backendCopy a t ∈ (copy_file B aid fname margs).1 →
      t = none) ∧
    Event.backendCopy aid none ∈ (copy_file B aid fname margs).1 ∧
    (∀ r new_id raw, B.copy_resp aid fname none margs = Except.ok new_id →
      B.metadata new_id = Except.ok raw → raw.artifact_id = some new_id →
      new_id ≠ "" →
      (copy_file B aid fname margs).2 = Except.ok r →
      r.artifact_id = new_id ∧ r.source_artifact_id = aid ∧
      r.operation = "copy") := by
  have htr : (copy_file B aid fname margs).1 =
        [Event.backendCopy aid none] ∨
      ∃ n, (copy_file B aid fname margs).1 =
        [Event.backendCopy aid none, Event.backendMetadata n] := by
    unfold copy_file
    repeat' split
    all_goals simp
  refine ⟨?_, ?_, ?_⟩
  · intro a t hmem
    rcases htr with h | ⟨n, h⟩ <;> rw [h] at hmem <;> simp at hmem <;>
      exact hmem.2
  · rcases htr with h | ⟨n, h⟩ <;> rw [h] <;> simp
  · intro r new_id raw hcopy hmeta hid hne hr
    have htru : truthy (some new_id) = true := by
      simp [truthy_some, hne]
    simp only [copy_file, hcopy, hmeta] at hr
    split at hr
    · cases hr
    · rename_i i hinfo
      cases hr
      refine ⟨?_, rfl, rfl⟩
      show i.artifact_id = new_id
      have hfld := (info_ok_fields hinfo).1
      unfold chainId at hfld
      rw [hid, pyOr_pos _ _ htru, pyOr_pos _ _ htru, pyOr_pos _ _ htru]
        at hfld
      exact hfld

/-- The result `copy_file` produces on `okBackend` for source `"orig"`. -/
def sampleCopyInfo : ArtifactInfo :=
  { sampleInfoS7 with artifact_id := "c1", session_id := none }

def sampleCopyRes : CopyFileResult :=
  { toArtifactInfo := sampleCopyInfo, source_artifact_id := "orig",
    operation := "copy" }

/-- Witness for C9 at concrete inputs. -/
theorem copy_file_same_session_witness :
    okBackend.copy_resp "orig" none none [] = Except.ok "c1" ∧
    (okBackend.metadata "c1" =
      Except.ok { sampleRaw with artifact_id := some "c1" }) ∧
    (copy_file okBackend "orig" none []).2 = Except.ok sampleCopyRes ∧
    (sampleCopyRes.artifact_id = "c1" ∧
      sampleCopyRes.source_artifact_id = "orig" ∧
      sampleCopyRes.operation = "copy") :=
  ⟨rfl, rfl, by decide,
    (copy_file_same_session okBackend "orig" none []).2.2 sampleCopyRes
      "c1" { sampleRaw with artifact_id := some "c1" } rfl rfl rfl
      (by decide) (by decide)⟩

theorem pyOr_fallback_eq (x : Option String) (s : String)
    (h : ¬ truthy x ∨ x = some s) : pyOr x (some s) = some s := by
  rcases h with h | rfl
  · exact pyOr_neg _ _ h
  · exact pyOr_self _

theorem discardOutcome_eq {α β : Type} (x : Except PyErr α) (r : β) :
    discardOutcome x r = r := by
  cases x <;> rfl

theorem finish_ok_shape {B : Backend} {oid : Option String}
    {tr : List Event} {art : String} {i : ArtifactInfo}
    {r : WriteFileResult}
    (h : (write_file_finish B oid tr art i).2 = Except.ok r) :
    r.toArtifactInfo = i ∧
    r.operation = (if truthy oid then "overwrite" else "create") := by
  unfold write_file_finish at h
  cases h
  exact ⟨rfl, rfl⟩

theorem store_build_ok_shape {B : Backend} {sess : String} {art : String}
    {i : ArtifactInfo}
    (h : (_store_and_build_info B sess).2 = Except.ok (art, i)) :
    ∃ raw, B.metadata art = Except.ok raw ∧
      _info raw (some art) (some sess) = Except.ok i := by
  unfold _store_and_build_info at h
  rcases hs : B.store_resp with e | aid
  · simp only [hs] at h
    cases h
  · simp only [hs] at h
    rcases hm : B.metadata aid with e | raw
    · simp only [hm] at h
      cases h
    · simp only [hm] at h
      rcases hi : _info raw (some aid) (some sess) with e | i0
      · rcases e with ⟨f⟩
        simp only [hi] at h
        cases h
      · simp only [hi] at h
        injection h with h2
        injection h2 with ha hb
        subst ha
        subst hb
        exact ⟨raw, hm, hi⟩

theorem recover_ok_shape {B : Backend} {sess : String} {oid : Option String}
    {tr : List Event} {r : WriteFileResult}
    (h : (write_file_recover B sess oid tr).2 = Except.ok r) :
    ∃ raw art, B.metadata art = Except.ok raw ∧
      _info raw (some art) (some sess) = Except.ok r.toArtifactInfo ∧
      r.operation = (if truthy oid then "overwrite" else "create") := by
  unfold write_file_recover at h
  rw [discardOutcome_eq] at h
  rcases hsb : _store_and_build_info B sess with ⟨tr2, res⟩
  rw [hsb] at h
  rcases res with e | ⟨art, i⟩
  · cases h
  · obtain ⟨hti, hop⟩ := finish_ok_shape h
    obtain ⟨raw, hm, hi⟩ := store_build_ok_shape
      (show (_store_and_build_info B sess).2 = Except.ok (art, i) by
        rw [hsb])
    refine ⟨raw, art, hm, ?_, hop⟩
    rw [hti]
    exact hi

theorem handleExc_ok_shape {B : Backend} {sess : String}
    {oid : Option String} {tr : List Event} {e : PyErr}
    {r : WriteFileResult}
    (h : (write_file_handleExc B sess oid tr e).2 = Except.ok r) :
    ∃ raw art, B.metadata art = Except.ok raw ∧
      _info raw (some art) (some sess) = Except.ok r.toArtifactInfo ∧
      r.operation = (if truthy oid then "overwrite" else "create") := by
  rcases e with msg | msg
  · simp only [write_file_handleExc] at h
    by_cases hc :
      recognizedConflict oid (PyErr.providerError msg) = true
    · rw [if_pos hc] at h
      exact recover_ok_shape h
    · rw [if_neg hc] at h
      cases h
  · simp only [write_file_handleExc] at h
    cases h

/-- Any successful `write_file` result was normalized by `_info` from a
backend metadata record with the caller's session as fallback, and its
operation tag is computed from the truthiness of `oid`. -/
theorem write_file_ok_shape {B : Backend} {sess : String}
    {oid : Option String} {r : WriteFileResult}
    (h : (write_file B sess oid).2 = Except.ok r) :
    (∃ raw art, B.metadata art = Except.ok raw ∧
      _info raw (some art) (some sess) = Except.ok r.toArtifactInfo) ∧
    r.operation = (if truthy oid then "overwrite" else "create") := by
  unfold write_file at h
  rcases hw : B.write_file_resp with e | art
  · simp only [hw] at h
    obtain ⟨raw, art, hm, hi, hop⟩ := handleExc_ok_shape h
    exact ⟨⟨raw, art, hm, hi⟩, hop⟩
  · simp only [hw] at h
    rcases hm : B.metadata art with e | raw
    · simp only [hm] at h
      obtain ⟨raw, art2, hm2, hi, hop⟩ := handleExc_ok_shape h
      exact ⟨⟨raw, art2, hm2, hi⟩, hop⟩
    · simp only [hm] at h
      rcases hi : _info raw (some art) (some sess) with e | i
      · rcases e with ⟨f⟩
        simp only [hi] at h
        cases h
      · simp only [hi] at h
        obtain ⟨hti, hop⟩ := finish_ok_shape h
        refine ⟨⟨raw, art, hm, ?_⟩, hop⟩
        rw [hti]
        exact hi

/-- C1: when `overwrite_artifact_id` carries a non-empty id and
`write_file` returns a result — via the direct backend write or the
recovery path — the result is tagged `operation = "overwrite"` and carries
the caller's effective session; with no `overwrite_artifact_id` the tag is
`"create"`.  `hB` is the environment assumption that backend metadata
records carry either no session or the caller's session. -/
theorem write_file_operation_tag (B : Backend) (sess oid : String)
    (hB : ∀ id raw, B.metadata id = Except.ok raw →
      ¬ truthy raw.session_id ∨ raw.session_id = some sess) :
    (∀ r, oid ≠ "" → (write_file B sess (some oid)).2 = Except.ok r →
      r.operation = "overwrite" ∧ r.session_id = some sess) ∧
    (∀ r, (write_file B sess none).2 = Except.ok r →
      r.operation = "create") := by
  constructor
  · intro r hoid hr
    obtain ⟨⟨raw, art, hmeta, hinfo⟩, hop⟩ := write_file_ok_shape hr
    constructor
    · rw [hop]
      simp [truthy_some, hoid]
    · have hs := (info_ok_fields hinfo).2
      show r.toArtifactInfo.session_id = some sess
      rw [hs]
      exact pyOr_fallback_eq _ _ (hB _ _ hmeta)
  · intro r hr
    have hop := (write_file_ok_shape hr).2
    rw [hop]
    rfl

/-- The descriptor the fast path of `write_file` builds on `okBackend`. -/
def sampleWriteInfo : ArtifactInfo :=
  { sampleInfoS1 with artifact_id := "w1" }

/-- The result `write_file` produces on `okBackend` when overwriting. -/
def sampleWriteRes : WriteFileResult :=
  { toArtifactInfo := sampleWriteInfo,
    download_url := some "https://example/w1", operation := "overwrite" }

/-- Witness for C1 at concrete inputs. -/
theorem write_file_operation_tag_witness :
    ("old1" ≠ "") ∧
    (write_file okBackend "s1" (some "old1")).2 =
      Except.ok sampleWriteRes ∧
    sampleWriteRes.operation = "overwrite" ∧
    sampleWriteRes.session_id = some "s1" :=
  ⟨by decide, by decide,
    (write_file_operation_tag okBackend "s1" "old1"
      (by
        intro id raw h
        simp only [okBackend] at h
        cases h
        left
        show ¬ truthy (none : Option String) = true
        decide)).1 sampleWriteRes (by decide) (by decide)⟩

theorem finish_fst (B : Backend) (oid : Option String) (tr : List Event)
    (art : String) (i : ArtifactInfo) :
    (write_file_finish B oid tr art i).1 =
      tr ++ [Event.backendPresignShort art] := rfl

theorem store_build_mem_store (B : Backend) (sess : String) :
    Event.backendStore ∈ (_store_and_build_info B sess).1 := by
  unfold _store_and_build_info
  repeat' split
  all_goals simp

theorem recover_mem_delete (B : Backend) (sess : String)
    (oid : Option String) (tr : List Event) :
    Event.backendDelete (oid.getD "") ∈
      (write_file_recover B sess oid tr).1 := by
  unfold write_file_recover
  rw [discardOutcome_eq]
  rcases hsb : _store_and_build_info B sess with ⟨tr2, res⟩
  rcases res with e | ⟨art, i⟩
  · exact List.mem_append_left _ (List.mem_append_right _ (by simp))
  · rw [finish_fst]
    exact List.mem_append_left _
      (List.mem_append_left _ (List.mem_append_right _ (by simp)))

theorem recover_mem_store (B : Backend) (sess : String)
    (oid : Option String) (tr : List Event) :
    Event.backendStore ∈ (write_file_recover B sess oid tr).1 := by
  unfold write_file_recover
  rw [discardOutcome_eq]
  have hmem := store_build_mem_store B sess
  rcases hsb : _store_and_build_info B sess with ⟨tr2, res⟩
  rw [hsb] at hmem
  rcases res with e | ⟨art, i⟩
  · exact List.mem_append_right _ hmem
  · rw [finish_fst]
    exact List.mem_append_left _ (List.mem_append_right _ hmem)

theorem handleExc_recognized (B : Backend) (sess : String)
    (oid : Option String) (tr : List Event) (e : PyErr)
    (hrec : recognizedConflict oid e = true) :
    write_file_handleExc B sess oid tr e =
      write_file_recover B sess oid tr := by
  rcases e with msg | msg
  · simp only [write_file_handleExc]
    rw [if_pos hrec]
  · simp [recognizedConflict] at hrec

theorem handleExc_not_recognized (B : Backend) (sess : String)
    (oid : Option String) (tr : List Event) (e : PyErr)
    (hrec : recognizedConflict oid e = false) :
    ∃ err, write_file_handleExc B sess oid tr e =
      (tr, Except.error err) := by
  rcases e with msg | msg
  · refine ⟨ToolError.valueError msg, ?_⟩
    simp only [write_file_handleExc]
    rw [if_neg]
    simp [hrec]
  · exact ⟨ToolError.uncaught msg, rfl⟩

theorem write_file_attempt_error (B : Backend) (sess : String)
    (oid : Option String) (e : PyErr) (hA : attemptErr B = some e) :
    ∃ tr, write_file B sess oid = write_file_handleExc B sess oid tr e ∧
      (∀ x, Event.backendDelete x ∉ tr) ∧ Event.backendStore ∉ tr := by
  unfold attemptErr at hA
  rcases hw : B.write_file_resp with e' | art
  · simp only [hw] at hA
    injection hA with hA
    subst hA
    refine ⟨[Event.backendWrite], ?_, by simp, by simp⟩
    unfold write_file
    rw [hw]
  · simp only [hw] at hA
    rcases hm : B.metadata art with e' | raw
    · simp only [hm] at hA
      injection hA with hA
      subst hA
      refine ⟨[Event.backendWrite, Event.backendMetadata art], ?_,
        by simp, by simp⟩
      unfold write_file
      simp only [hw, hm]
    · simp only [hm] at hA
      cases hA

theorem write_file_attempt_ok (B : Backend) (sess : String)
    (oid : Option String) (hA : attemptErr B = none) :
    (∀ x, Event.backendDelete x ∉ (write_file B sess oid).1) ∧
    Event.backendStore ∉ (write_file B sess oid).1 := by
  unfold attemptErr at hA
  rcases hw : B.write_file_resp with e | art
  · simp only [hw] at hA
    cases hA
  · simp only [hw] at hA
    rcases hm : B.metadata art with e | raw
    · simp only [hm] at hA
      cases hA
    · unfold write_file
      simp only [hw, hm]
      rcases hi : _info raw (some art) (some sess) with ⟨f⟩ | i
      · simp only [hi]
        exact ⟨fun x => by simp, by simp⟩
      · simp only [hi]
        unfold write_file_finish
        exact ⟨fun x => by simp, by simp⟩

theorem write_file_recovery_events (B : Backend) (sess : String)
    (oid : Option String) (e : PyErr) (hA : attemptErr B = some e)
    (hrec : recognizedConflict oid e = true) :
    (∃ x, Event.backendDelete x ∈ (write_file B sess oid).1) ∧
    Event.backendStore ∈ (write_file B sess oid).1 := by
  obtain ⟨tr, heq, _, _⟩ := write_file_attempt_error B sess oid e hA
  rw [heq, handleExc_recognized B sess oid tr e hrec]
  exact ⟨⟨oid.getD "", recover_mem_delete B sess oid tr⟩,
    recover_mem_store B sess oid tr⟩

theorem write_file_error_surfaced (B : Backend) (sess : String)
    (oid : Option String) (e : PyErr) (hA : attemptErr B = some e)
    (hrec : recognizedConflict oid e = false) :
    (∀ x, Event.backendDelete x ∉ (write_file B sess oid).1) ∧
    Event.backendStore ∉ (write_file B sess oid).1 ∧
    ∃ err, (write_file B sess oid).2 = Except.error err := by
  obtain ⟨tr, heq, hnd, hns⟩ := write_file_attempt_error B sess oid e hA
  obtain ⟨err, herr⟩ := handleExc_not_recognized B sess oid tr e hrec
  rw [heq, herr]
  exact ⟨fun x => hnd x, hns, err, rfl⟩

/-- C2: the delete-then-recreate recovery runs exactly when the attempt
stage raised a `ProviderError` carrying both conflict markers while
`overwrite_artifact_id` was supplied (truthy); any other attempt-stage
error is surfaced to the caller as an error with no delete and no
recreate call in the trace. -/
theorem write_file_recovery_guard (B : Backend) (sess : String)
    (oid : Option String) :
    (((∃ x, Event.backendDelete x ∈ (write_file B sess oid).1) ∨
        Event.backendStore ∈ (write_file B sess oid).1) ↔
      (∃ e, attemptErr B = some e ∧ recognizedConflict oid e = true)) ∧
    (∀ e, attemptErr B = some e → recognizedConflict oid e = false →
      ∃ err, (write_file B sess oid).2 = Except.error err) := by
  constructor
  · constructor
    · intro hev
      rcases hA : attemptErr B with _ | e
      · exfalso
        have hno := write_file_attempt_ok B sess oid hA
        rcases hev with ⟨x, hx⟩ | hst
        · exact hno.1 x hx
        · exact hno.2 hst
      · rcases hrec : recognizedConflict oid e with _ | _
        · exfalso
          have hno := write_file_error_surfaced B sess oid e hA hrec
          rcases hev with ⟨x, hx⟩ | hst
          · exact hno.1 x hx
          · exact hno.2.1 hst
        · exact ⟨e, rfl, hrec⟩
    · rintro ⟨e, hA, hrec⟩
      exact Or.inl (write_file_recovery_events B sess oid e hA hrec).1
  · intro e hA hrec
    exact (write_file_error_surfaced B sess oid e hA hrec).2.2

/-- Witness for C2 at concrete inputs: the recognized conflict enters the
recovery path (a delete event appears in the trace), and an unrecognized
provider error is surfaced with no recovery. -/
theorem write_file_recovery_guard_witness :
    attemptErr conflictBackend = some (PyErr.providerError conflictMsg) ∧
    recognizedConflict (some "old1") (PyErr.providerError conflictMsg) =
      true ∧
    ((∃ x, Event.backendDelete x ∈
        (write_file conflictBackend "s1" (some "old1")).1) ∨
      Event.backendStore ∈
        (write_file conflictBackend "s1" (some "old1")).1) :=
  ⟨rfl, by decide,
    (write_file_recovery_guard conflictBackend "s1" (some "old1")).1.mpr
      ⟨PyErr.providerError conflictMsg, rfl, by decide⟩⟩

theorem write_file_delete_independent (B : Backend)
    (d : String → Except PyErr Bool) (sess : String)
    (oid : Option String) :
    write_file { B with delete_resp := d } sess oid =
      write_file B sess oid := by
  have hw : ({ B with delete_resp := d } : Backend).write_file_resp =
      B.write_file_resp := rfl
  have hm : ∀ a, ({ B with delete_resp := d } : Backend).metadata a =
      B.metadata a := fun _ => rfl
  have hp : ∀ a,
      ({ B with delete_resp := d } : Backend).presign_short_resp a =
        B.presign_short_resp a := fun _ => rfl
  have hs : ({ B with delete_resp := d } : Backend).store_resp =
      B.store_resp := rfl
  simp only [write_file, write_file_handleExc, write_file_recover,
    write_file_finish, _store_and_build_info, discardOutcome_eq, hw, hm,
    hp, hs]

/-- C8: once the recognized conflict is reached, the recreate (store) call
happens — it appears in the trace even on a backend whose delete raises —
and the delete outcome is never surfaced: the whole tool outcome (trace
and result) is identical for any two delete behaviours. -/
theorem write_file_delete_best_effort (B : Backend) (sess : String)
    (oid : Option String) (e : PyErr) (hA : attemptErr B = some e)
    (hrec : recognizedConflict oid e = true) :
    Event.backendStore ∈ (write_file B sess oid).1 ∧
    ∀ d : String → Except PyErr Bool,
      write_file { B with delete_resp := d } sess oid =
        write_file B sess oid :=
  ⟨(write_file_recovery_events B sess oid e hA hrec).2,
    fun d => write_file_delete_independent B d sess oid⟩

/-- The conflict backend whose delete of the old artefact also raises. -/
def deleteFailBackend : Backend :=
  { conflictBackend with
    delete_resp := fun _ => .error (.otherError "delete failed") }

/-- Witness for C8 at concrete inputs: even with a failing delete, the
store call appears in the trace, and swapping the delete behaviour leaves
the outcome unchanged. -/
theorem write_file_delete_best_effort_witness :
    attemptErr deleteFailBackend =
      some (PyErr.providerError conflictMsg) ∧
    recognizedConflict (some "old1") (PyErr.providerError conflictMsg) =
      true ∧
    Event.backendStore ∈
      (write_file deleteFailBackend "s1" (some "old1")).1 :=
  ⟨rfl, by decide,
    (write_file_delete_best_effort deleteFailBackend "s1" (some "old1")
      (PyErr.providerError conflictMsg) rfl (by decide)).1⟩

end ChukArtifact
